import Mathlib

/-!
Verification of the LLM fallback orchestrator of `src/services/llm_service.py`
and the `/general-ai` route of `src/routes/general_ai_routes.py`
(repository `victoriavals/nfl-chatbot-api`).

The Python code is shallowly embedded: each Python function becomes a total
Lean function over an explicit model of the HTTP world.  A network interaction
of one provider attempt is a value of `HttpBehavior`: either a received
response (status code, body text, and the result of extracting the content
field from the parsed JSON body) or a raised transport exception carrying its
`str(e)` message.  The orchestrator receives an environment `env : Nat →
HttpBehavior` assigning a behavior to each attempt position, so theorems
quantify over every possible behaviour of the network.
-/

/-- Enum `LLMStatus` of `src/services/llm_service.py` (lines 26-32). -/
inductive LLMStatus where
  | SUCCESS
  | ERROR
  | RATE_LIMITED
  | API_KEY_MISSING
  | MODEL_NOT_FOUND
  deriving DecidableEq

/-- Dataclass `LLMResponse` of `src/services/llm_service.py` (lines 35-42). -/
structure LLMResponse where
  status : LLMStatus
  content : Option String
  provider : String
  model : String
  error_message : Option String := none
  deriving DecidableEq

/-- Dataclass `LLMProvider` of `src/services/llm_service.py` (lines 45-53).
Python `priority` is an `int`, embedded as `Int`; `base_url` is
`Optional[str]`. -/
structure LLMProvider where
  name : String
  api_key : String
  base_url : Option String
  model : String
  priority : Int
  provider_type : String
  deriving DecidableEq

/-- Result of evaluating, on a transport-level 200 response, the Python
expression that extracts the content string from the parsed JSON body
(`response.json()` followed by the nested indexing, e.g.
`data["choices"][0]["message"]["content"]`).  `fail msg` models that this
expression raised (malformed JSON, missing field, wrong shape, non-string
leaf); `msg` is `str(e)` of the raised exception, which the enclosing
`except` block hands to the classifier. -/
inductive JsonExtract where
  | ok (content : String)
  | fail (msg : String)
  deriving DecidableEq

/-- One provider attempt as seen from inside an adapter: either an HTTP
response was received (any status code, any body text, any extraction
result), or the request raised a transport exception with message `msg`. -/
inductive HttpBehavior where
  | response (status_code : Nat) (text : String) (extracted : JsonExtract)
  | exception (msg : String)
  deriving DecidableEq

/-- Python substring test `pat in s`, on the character lists. -/
def listContains (s pat : List Char) : Bool :=
  match s with
  | [] => pat.isEmpty
  | _ :: rest => pat.isPrefixOf s || listContains rest pat

/-- Python substring test `pat in s`. -/
def strContains (s pat : String) : Bool :=
  listContains s.data pat.data

/-- Python `s.lower()`: lowercase each character (`String.toLower`
semantics, written as a structural map over the character list; the
classifier patterns are ASCII). -/
def pyLower (s : String) : String :=
  String.mk (s.data.map Char.toLower)

/-- Python slice `s[:n]`. -/
def pyTruncate (s : String) (n : Nat) : String :=
  String.mk (s.data.take n)

/-- Python f-string rendering of an `Optional[str]`: `None` prints as the
text `"None"`. -/
def pyOptStr : Option String → String
  | some s => s
  | none => "None"

/-- Method `LLMService._classify_http_error` (lines 352-406): classify a
non-200 HTTP response by status code alone. -/
def classify_http_error (provider : LLMProvider) (status_code : Nat)
    (error_body : String) : LLMResponse :=
  let error_msg : String := "HTTP " ++ toString status_code ++ ": " ++ error_body
  if status_code = 429 then
    { status := .RATE_LIMITED, content := none, provider := provider.name,
      model := provider.model, error_message := some error_msg }
  else if status_code = 401 ∨ status_code = 403 then
    { status := .API_KEY_MISSING, content := none, provider := provider.name,
      model := provider.model, error_message := some error_msg }
  else if status_code = 404 then
    { status := .MODEL_NOT_FOUND, content := none, provider := provider.name,
      model := provider.model, error_message := some error_msg }
  else
    { status := .ERROR, content := none, provider := provider.name,
      model := provider.model, error_message := some error_msg }

/-- Method `LLMService._classify_exception` (lines 408-447): classify a
caught exception by its `str(e)` text.  Python tests `"429" in error_msg or
"rate" in error_msg.lower()` and `"401" in error_msg or "unauthorized" in
error_msg.lower()`. -/
def classify_exception (provider : LLMProvider) (error_msg : String) :
    LLMResponse :=
  if strContains error_msg "429" || strContains (pyLower error_msg) "rate" then
    { status := .RATE_LIMITED, content := none, provider := provider.name,
      model := provider.model, error_message := some error_msg }
  else if strContains error_msg "401" ||
      strContains (pyLower error_msg) "unauthorized" then
    { status := .API_KEY_MISSING, content := none, provider := provider.name,
      model := provider.model, error_message := some error_msg }
  else
    { status := .ERROR, content := none, provider := provider.name,
      model := provider.model, error_message := some error_msg }

/-- Body of the `try` block of `LLMService._query_ai4chat` (lines 161-197).
`Except.error msg` models an exception escaping the `try` body.  On a
received response, the code returns SUCCESS only for status 200 with
non-empty `response.text`; every other received response falls through to
the `HTTP {status_code}` error return (note: including status 200 with an
empty body). -/
def query_ai4chat_body (_prompt : String) (beh : HttpBehavior) :
    Except String LLMResponse :=
  match beh with
  | .exception msg => .error msg
  | .response status_code text _ =>
    if status_code = 200 ∧ text ≠ "" then
      .ok { status := .SUCCESS, content := some text, provider := "Ai4Chat",
            model := "ai4chat" }
    else
      .ok { status := .ERROR, content := none, provider := "Ai4Chat",
            model := "ai4chat",
            error_message := some ("HTTP " ++ toString status_code) }

/-- Method `LLMService._query_ai4chat` (lines 149-207): the `try` body plus
its `except` handler, which returns ERROR with `str(e)` as message. -/
def query_ai4chat (prompt : String) (beh : HttpBehavior) : LLMResponse :=
  match query_ai4chat_body prompt beh with
  | .ok r => r
  | .error e =>
    { status := .ERROR, content := none, provider := "Ai4Chat",
      model := "ai4chat", error_message := some e }

/-- Body of the `try` block of `LLMService._query_openai_compatible`
(lines 224-275).  On status 200 the code runs `response.json()` and the
nested indexing (modelled by the `extracted` field; a raise there escapes
the `try` body as `Except.error`); non-empty content is SUCCESS, empty
content is ERROR with message `"Empty response"`; a non-200 status goes to
the classifier with the body truncated to 200 characters. -/
def query_openai_compatible_body (provider : LLMProvider) (_prompt : String)
    (beh : HttpBehavior) : Except String LLMResponse :=
  match beh with
  | .exception msg => .error msg
  | .response status_code text extracted =>
    if status_code = 200 then
      match extracted with
      | .fail msg => .error msg
      | .ok content =>
        if content ≠ "" then
          .ok { status := .SUCCESS, content := some content,
                provider := provider.name, model := provider.model }
        else
          .ok { status := .ERROR, content := none, provider := provider.name,
                model := provider.model,
                error_message := some "Empty response" }
    else
      .ok (classify_http_error provider status_code (pyTruncate text 200))

/-- Method `LLMService._query_openai_compatible` (lines 209-278): the `try`
body plus its `except` handler `self._classify_exception(provider, e)`. -/
def query_openai_compatible (provider : LLMProvider) (prompt : String)
    (beh : HttpBehavior) : LLMResponse :=
  match query_openai_compatible_body provider prompt beh with
  | .ok r => r
  | .error e => classify_exception provider e

/-- Body of the `try` block of `LLMService._query_gemini` (lines 293-347);
same structure as the OpenAI-compatible body, with the Gemini extraction
expression `data["candidates"][0]["content"]["parts"][0]["text"]`. -/
def query_gemini_body (provider : LLMProvider) (_prompt : String)
    (beh : HttpBehavior) : Except String LLMResponse :=
  match beh with
  | .exception msg => .error msg
  | .response status_code text extracted =>
    if status_code = 200 then
      match extracted with
      | .fail msg => .error msg
      | .ok content =>
        if content ≠ "" then
          .ok { status := .SUCCESS, content := some content,
                provider := provider.name, model := provider.model }
        else
          .ok { status := .ERROR, content := none, provider := provider.name,
                model := provider.model,
                error_message := some "Empty response" }
    else
      .ok (classify_http_error provider status_code (pyTruncate text 200))

/-- Method `LLMService._query_gemini` (lines 280-350): the `try` body plus
its `except` handler `self._classify_exception(provider, e)`. -/
def query_gemini (provider : LLMProvider) (prompt : String)
    (beh : HttpBehavior) : LLMResponse :=
  match query_gemini_body provider prompt beh with
  | .ok r => r
  | .error e => classify_exception provider e

/-- The provider-type dispatch of `LLMService.query` (lines 476-482). -/
def dispatch (provider : LLMProvider) (prompt : String)
    (beh : HttpBehavior) : LLMResponse :=
  if provider.provider_type = "ai4chat" then
    query_ai4chat prompt beh
  else if provider.provider_type = "google" then
    query_gemini provider prompt beh
  else
    query_openai_compatible provider prompt beh

/-- One entry of the `errors` list of `LLMService.query` (line 489):
`f"{provider.name}: {response.error_message}"`. -/
def failEntry (provider : LLMProvider) (r : LLMResponse) : String :=
  provider.name ++ ": " ++ pyOptStr r.error_message

/-- The exhausted-fallback return value of `LLMService.query`
(lines 494-500). -/
def allFailedResponse (errors : List String) : LLMResponse :=
  { status := .ERROR, content := none, provider := "All", model := "All",
    error_message :=
      some ("All providers failed: " ++ String.intercalate "; " errors) }

/-- The empty-provider-list return value of `LLMService.query`
(lines 460-466). -/
def noProvidersResponse : LLMResponse :=
  { status := .API_KEY_MISSING, content := none, provider := "None",
    model := "None", error_message := some "No providers configured" }

/-- Result of one `LLMService.query` call, instrumented for verification:
`response` is the value the Python method returns, `attempted` records the
providers whose adapter was dispatched (in dispatch order), and `errors` is
the final state of the local `errors` list. -/
structure QueryTrace where
  response : LLMResponse
  attempted : List LLMProvider
  errors : List String
  deriving DecidableEq

/-- The fallback loop of `LLMService.query` (lines 471-500): try each
provider in list order; return the first SUCCESS response immediately,
otherwise append a failure entry and continue; when the list is exhausted
return the aggregated failure.  `i` is the attempt position used to read
the network environment. -/
def queryLoop (prompt : String) (env : Nat → HttpBehavior) :
    List LLMProvider → Nat → List String → QueryTrace
  | [], _, errors =>
    { response := allFailedResponse errors, attempted := [], errors := errors }
  | p :: rest, i, errors =>
    let r := dispatch p prompt (env i)
    if r.status = .SUCCESS then
      { response := r, attempted := [p], errors := errors }
    else
      let t := queryLoop prompt env rest (i + 1) (errors ++ [failEntry p r])
      { response := t.response, attempted := p :: t.attempted,
        errors := t.errors }

/-- Method `LLMService.query` (lines 449-500), instrumented: the
empty-list guard (lines 459-466) followed by the fallback loop. -/
def queryTrace (providers : List LLMProvider) (prompt : String)
    (env : Nat → HttpBehavior) : QueryTrace :=
  if providers.isEmpty then
    { response := noProvidersResponse, attempted := [], errors := [] }
  else
    queryLoop prompt env providers 0 []

/-- Method `LLMService.query` (lines 449-500): the value returned to the
caller. -/
def query (providers : List LLMProvider) (prompt : String)
    (env : Nat → HttpBehavior) : LLMResponse :=
  (queryTrace providers prompt env).response

/-- The environment-configured API keys read by
`LLMService._initialize_providers` from `ConstantsVar` (`src/env.py`,
lines 43-46); each is a string, defaulting to the empty string when the
variable is unset, and Python truthiness `if ConstantsVar.MY_..._API_KEY`
is the non-emptiness test. -/
structure ConstantsVar where
  MY_OPENROUTER_API_KEY : String
  MY_CEREBRAS_API_KEY : String
  MY_GEMINI_API_KEY : String
  MY_GROQ_API_KEY : String

/-- The unconditional keyless provider of `_initialize_providers`
(lines 91-98). -/
def ai4chatProvider : LLMProvider :=
  { name := "Ai4Chat", api_key := "",
    base_url :=
      some "https://yw85opafq6.execute-api.us-east-1.amazonaws.com/default/boss_mode_15aug",
    model := "ai4chat", priority := 0, provider_type := "ai4chat" }

/-- The Cerebras provider of `_initialize_providers` (lines 101-109). -/
def cerebrasProvider (key : String) : LLMProvider :=
  { name := "Cerebras", api_key := key,
    base_url := some "https://api.cerebras.ai/v1", model := "llama-3.3-70b",
    priority := 1, provider_type := "openai_compatible" }

/-- The Groq provider of `_initialize_providers` (lines 112-120). -/
def groqProvider (key : String) : LLMProvider :=
  { name := "Groq", api_key := key,
    base_url := some "https://api.groq.com/openai/v1",
    model := "llama-3.3-70b-versatile", priority := 2,
    provider_type := "openai_compatible" }

/-- The OpenRouter provider of `_initialize_providers` (lines 123-131). -/
def openRouterProvider (key : String) : LLMProvider :=
  { name := "OpenRouter", api_key := key,
    base_url := some "https://openrouter.ai/api/v1",
    model := "google/gemma-3-12b-it:free", priority := 3,
    provider_type := "openai_compatible" }

/-- The Gemini provider of `_initialize_providers` (lines 134-142). -/
def geminiProvider (key : String) : LLMProvider :=
  { name := "Gemini", api_key := key, base_url := none,
    model := "gemini-1.5-flash", priority := 4, provider_type := "google" }

/-- The comparison used by `providers.sort(key=lambda x: x.priority)`. -/
def priLE (a b : LLMProvider) : Bool :=
  decide (a.priority ≤ b.priority)

/-- The provider list of `_initialize_providers` (lines 88-142) before
the sort: the keyless provider unconditionally, then each keyed provider
exactly when its key is a non-empty string. -/
def providersList (c : ConstantsVar) : List LLMProvider :=
  [ai4chatProvider]
    ++ (if c.MY_CEREBRAS_API_KEY ≠ "" then
          [cerebrasProvider c.MY_CEREBRAS_API_KEY] else [])
    ++ (if c.MY_GROQ_API_KEY ≠ "" then
          [groqProvider c.MY_GROQ_API_KEY] else [])
    ++ (if c.MY_OPENROUTER_API_KEY ≠ "" then
          [openRouterProvider c.MY_OPENROUTER_API_KEY] else [])
    ++ (if c.MY_GEMINI_API_KEY ≠ "" then
          [geminiProvider c.MY_GEMINI_API_KEY] else [])

/-- Method `LLMService._initialize_providers` (lines 81-147): build the
conditional provider list, then `providers.sort(key=lambda x: x.priority)`
(a stable sort, modelled by `List.mergeSort`). -/
def initialize_providers (c : ConstantsVar) : List LLMProvider :=
  (providersList c).mergeSort priLE

lemma priLE_trans : ∀ a b d : LLMProvider, priLE a b → priLE b d → priLE a d := by
  intro a b d hab hbd
  simp only [priLE, decide_eq_true_eq] at *
  omega

lemma priLE_total : ∀ a b : LLMProvider, priLE a b || priLE b a := by
  intro a b
  simp only [priLE, Bool.or_eq_true, decide_eq_true_eq]
  omega

lemma ite_singleton_sublist {b : Prop} [Decidable b] (x : LLMProvider) :
    List.Sublist (if b then [x] else []) [x] := by
  split
  · exact List.Sublist.refl _
  · exact List.nil_sublist _

lemma providersList_pairwise (c : ConstantsVar) :
    (providersList c).Pairwise fun a b => priLE a b = true := by
  have master :
      ([ai4chatProvider] ++ [cerebrasProvider c.MY_CEREBRAS_API_KEY]
        ++ [groqProvider c.MY_GROQ_API_KEY]
        ++ [openRouterProvider c.MY_OPENROUTER_API_KEY]
        ++ [geminiProvider c.MY_GEMINI_API_KEY]).Pairwise
        (fun a b => priLE a b = true) := by
    norm_num [List.pairwise_cons, priLE, ai4chatProvider, cerebrasProvider,
      groqProvider, openRouterProvider, geminiProvider]
  have hsub : List.Sublist (providersList c)
      ([ai4chatProvider] ++ [cerebrasProvider c.MY_CEREBRAS_API_KEY]
        ++ [groqProvider c.MY_GROQ_API_KEY]
        ++ [openRouterProvider c.MY_OPENROUTER_API_KEY]
        ++ [geminiProvider c.MY_GEMINI_API_KEY]) :=
    ((((List.Sublist.refl [ai4chatProvider]).append
      (ite_singleton_sublist _)).append
      (ite_singleton_sublist _)).append
      (ite_singleton_sublist _)).append
      (ite_singleton_sublist _)
  exact master.sublist hsub

/-- On the lists this code builds, the stable sort is the identity: the
construction already appends providers in ascending priority order. -/
lemma initialize_providers_eq (c : ConstantsVar) :
    initialize_providers c = providersList c :=
  List.mergeSort_of_sorted (providersList_pairwise c)

/-- Stability of the embedded sort: the relative order of providers of any
one priority is exactly their insertion order. -/
lemma mergeSort_priLE_filter (l : List LLMProvider) (k : Int) :
    ((l.mergeSort priLE).filter fun p => p.priority == k) =
      l.filter fun p => p.priority == k := by
  have hpw : (l.filter fun p => p.priority == k).Pairwise
      (fun a b => priLE a b = true) := by
    apply List.pairwise_of_forall_mem_list
    intro a ha b hb
    have ha2 := (List.mem_filter.mp ha).2
    have hb2 := (List.mem_filter.mp hb).2
    simp only [beq_iff_eq] at ha2 hb2
    simp only [priLE, decide_eq_true_eq, ha2, hb2, le_refl]
  have hsub : List.Sublist (l.filter fun p => p.priority == k) (l.mergeSort priLE) :=
    List.sublist_mergeSort priLE_trans priLE_total hpw (List.filter_sublist l)
  have hperm : List.Perm ((l.mergeSort priLE).filter fun p => p.priority == k)
      (l.filter fun p => p.priority == k) :=
    (List.mergeSort_perm l priLE).filter _
  have hsub2 : List.Sublist (l.filter fun p => p.priority == k)
      ((l.mergeSort priLE).filter fun p => p.priority == k) := by
    have h2 := hsub.filter (fun p => p.priority == k)
    rw [List.filter_filter] at h2
    simpa only [Bool.and_self] using h2
  exact (hsub2.eq_of_length hperm.length_eq.symm).symm

/-- The per-attempt adapter results for one `query` call, aligned with the
provider list: entry `j` of `attempts prompt env s ps` is the response the
dispatched adapter produces for provider `ps[j]` at attempt position
`s + j`. -/
def attempts (prompt : String) (env : Nat → HttpBehavior) :
    Nat → List LLMProvider → List LLMResponse
  | _, [] => []
  | s, p :: rest => dispatch p prompt (env s) :: attempts prompt env (s + 1) rest

/-- The `errors` entries accumulated when every listed provider fails. -/
def failEntries (prompt : String) (env : Nat → HttpBehavior) :
    Nat → List LLMProvider → List String
  | _, [] => []
  | s, p :: rest =>
    failEntry p (dispatch p prompt (env s)) :: failEntries prompt env (s + 1) rest

lemma failEntries_length (prompt : String) (env : Nat → HttpBehavior) :
    ∀ (ps : List LLMProvider) (s : Nat),
      (failEntries prompt env s ps).length = ps.length := by
  intro ps
  induction ps with
  | nil => intro s; rfl
  | cons p rest ih => intro s; simp [failEntries, ih (s + 1)]

lemma queryLoop_success_iff (prompt : String) (env : Nat → HttpBehavior) :
    ∀ (ps : List LLMProvider) (s : Nat) (errs : List String),
      (queryLoop prompt env ps s errs).response.status = .SUCCESS ↔
        ∃ i, ∃ h : i < ps.length,
          (dispatch (ps.get ⟨i, h⟩) prompt (env (s + i))).status = .SUCCESS := by
  intro ps
  induction ps with
  | nil =>
    intro s errs
    simp [queryLoop, allFailedResponse]
  | cons p rest ih =>
    intro s errs
    by_cases hp : (dispatch p prompt (env s)).status = .SUCCESS
    · have hunfold : queryLoop prompt env (p :: rest) s errs =
          { response := dispatch p prompt (env s), attempted := [p],
            errors := errs } := by
        simp [queryLoop, hp]
      rw [hunfold]
      exact ⟨fun _ => ⟨0, Nat.succ_pos _, by simpa using hp⟩, fun _ => hp⟩
    · simp only [queryLoop, hp, if_neg, not_false_iff]
      rw [ih (s + 1)]
      constructor
      · rintro ⟨i, h, hi⟩
        refine ⟨i + 1, Nat.succ_lt_succ h, ?_⟩
        have harith : s + (i + 1) = s + 1 + i := by omega
        rw [harith]
        exact hi
      · rintro ⟨i, h, hi⟩
        match i with
        | 0 => exact absurd (by simpa using hi) hp
        | j + 1 =>
          refine ⟨j, Nat.lt_of_succ_lt_succ h, ?_⟩
          have harith : s + 1 + j = s + (j + 1) := by omega
          rw [harith]
          exact hi

lemma queryLoop_first_success (prompt : String) (env : Nat → HttpBehavior) :
    ∀ (ps : List LLMProvider) (s : Nat) (errs : List String)
      (i : Nat) (h : i < ps.length),
      (dispatch (ps.get ⟨i, h⟩) prompt (env (s + i))).status = .SUCCESS →
      (∀ j, j < i → ∀ hj : j < ps.length,
        (dispatch (ps.get ⟨j, hj⟩) prompt (env (s + j))).status ≠ .SUCCESS) →
      (queryLoop prompt env ps s errs).response =
          dispatch (ps.get ⟨i, h⟩) prompt (env (s + i)) ∧
        (queryLoop prompt env ps s errs).attempted = ps.take (i + 1) ∧
        (queryLoop prompt env ps s errs).errors =
          errs ++ (failEntries prompt env s ps).take i := by
  intro ps
  induction ps with
  | nil =>
    intro s errs i h
    exact absurd h (Nat.not_lt_zero i)
  | cons p rest ih =>
    intro s errs i h hsucc hfirst
    match i with
    | 0 =>
      have hp : (dispatch p prompt (env s)).status = .SUCCESS := by
        simpa using hsucc
      simp [queryLoop, hp]
    | j + 1 =>
      have hp : (dispatch p prompt (env s)).status ≠ .SUCCESS := by
        have := hfirst 0 (Nat.succ_pos j) (Nat.succ_pos rest.length)
        simpa using this
      simp only [queryLoop, hp, if_neg, not_false_iff]
      have harith : s + (j + 1) = s + 1 + j := by omega
      have hsucc2 : (dispatch (rest.get ⟨j, Nat.lt_of_succ_lt_succ h⟩) prompt
          (env (s + 1 + j))).status = .SUCCESS := by
        rw [← harith]
        exact hsucc
      have hfirst2 : ∀ j2, j2 < j → ∀ hj2 : j2 < rest.length,
          (dispatch (rest.get ⟨j2, hj2⟩) prompt
            (env (s + 1 + j2))).status ≠ .SUCCESS := by
        intro j2 hj2 hj2len
        have harith2 : s + 1 + j2 = s + (j2 + 1) := by omega
        rw [harith2]
        exact hfirst (j2 + 1) (Nat.succ_lt_succ hj2) (Nat.succ_lt_succ hj2len)
      obtain ⟨h1, h2, h3⟩ := ih (s + 1) (errs ++ [failEntry p (dispatch p prompt (env s))])
        j (Nat.lt_of_succ_lt_succ h) hsucc2 hfirst2
      have hget : (p :: rest).get ⟨j + 1, h⟩ =
          rest.get ⟨j, Nat.lt_of_succ_lt_succ h⟩ := rfl
      rw [hget, harith]
      refine ⟨h1, ?_, ?_⟩
      · simp [h2, List.take_succ_cons]
      · simp only [h3, failEntries, List.take_succ_cons, List.append_assoc,
          List.singleton_append]

lemma queryLoop_all_fail (prompt : String) (env : Nat → HttpBehavior) :
    ∀ (ps : List LLMProvider) (s : Nat) (errs : List String),
      (∀ j, ∀ hj : j < ps.length,
        (dispatch (ps.get ⟨j, hj⟩) prompt (env (s + j))).status ≠ .SUCCESS) →
      queryLoop prompt env ps s errs =
        { response := allFailedResponse (errs ++ failEntries prompt env s ps),
          attempted := ps,
          errors := errs ++ failEntries prompt env s ps } := by
  intro ps
  induction ps with
  | nil =>
    intro s errs _
    simp [queryLoop, failEntries]
  | cons p rest ih =>
    intro s errs hall
    have hp : (dispatch p prompt (env s)).status ≠ .SUCCESS := by
      have := hall 0 (Nat.succ_pos rest.length)
      simpa using this
    have hall2 : ∀ j, ∀ hj : j < rest.length,
        (dispatch (rest.get ⟨j, hj⟩) prompt (env (s + 1 + j))).status ≠
          .SUCCESS := by
      intro j hj
      have harith : s + 1 + j = s + (j + 1) := by omega
      rw [harith]
      exact hall (j + 1) (Nat.succ_lt_succ hj)
    have hrec := ih (s + 1) (errs ++ [failEntry p (dispatch p prompt (env s))]) hall2
    simp only [queryLoop, hp, if_neg, not_false_iff, hrec, failEntries]
    simp [List.append_assoc]

lemma queryLoop_attempted_take (prompt : String) (env : Nat → HttpBehavior) :
    ∀ (ps : List LLMProvider) (s : Nat) (errs : List String),
      ∃ k, (queryLoop prompt env ps s errs).attempted = ps.take k := by
  intro ps
  induction ps with
  | nil =>
    intro s errs
    exact ⟨0, rfl⟩
  | cons p rest ih =>
    intro s errs
    by_cases hp : (dispatch p prompt (env s)).status = .SUCCESS
    · refine ⟨1, ?_⟩
      simp [queryLoop, hp]
    · obtain ⟨k, hk⟩ := ih (s + 1) (errs ++ [failEntry p (dispatch p prompt (env s))])
      refine ⟨k + 1, ?_⟩
      simp [queryLoop, hp, hk, List.take_succ_cons]

/-- Invariant tying `content` to `status`: content is a present non-empty
string exactly on SUCCESS, and absent otherwise. -/
def contentInv (r : LLMResponse) : Prop :=
  (r.status = .SUCCESS ↔ ∃ s, r.content = some s ∧ s ≠ "") ∧
    (r.status ≠ .SUCCESS → r.content = none)

lemma classify_http_error_fields (p : LLMProvider) (sc : Nat) (body : String) :
    (classify_http_error p sc body).status ≠ .SUCCESS ∧
      (classify_http_error p sc body).content = none ∧
      (classify_http_error p sc body).provider = p.name ∧
      (classify_http_error p sc body).model = p.model := by
  unfold classify_http_error
  split_ifs <;> exact ⟨by simp, rfl, rfl, rfl⟩

lemma classify_exception_fields (p : LLMProvider) (msg : String) :
    (classify_exception p msg).status ≠ .SUCCESS ∧
      (classify_exception p msg).content = none ∧
      (classify_exception p msg).provider = p.name ∧
      (classify_exception p msg).model = p.model := by
  unfold classify_exception
  split_ifs <;> exact ⟨by simp, rfl, rfl, rfl⟩

lemma query_ai4chat_cases (prompt : String) (beh : HttpBehavior) :
    ((query_ai4chat prompt beh).status = .SUCCESS ∧
        (query_ai4chat prompt beh).provider = "Ai4Chat" ∧
        (query_ai4chat prompt beh).model = "ai4chat" ∧
        ∃ s, (query_ai4chat prompt beh).content = some s ∧ s ≠ "") ∨
      ((query_ai4chat prompt beh).status ≠ .SUCCESS ∧
        (query_ai4chat prompt beh).content = none) := by
  cases beh with
  | exception m => exact Or.inr ⟨by simp [query_ai4chat, query_ai4chat_body], rfl⟩
  | response sc text ex =>
    simp only [query_ai4chat, query_ai4chat_body]
    by_cases hc : sc = 200 ∧ text ≠ ""
    · rw [if_pos hc]
      exact Or.inl ⟨rfl, rfl, rfl, text, rfl, hc.2⟩
    · rw [if_neg hc]
      exact Or.inr ⟨by simp, rfl⟩

lemma query_openai_compatible_cases (p : LLMProvider) (prompt : String)
    (beh : HttpBehavior) :
    ((query_openai_compatible p prompt beh).provider = p.name ∧
        (query_openai_compatible p prompt beh).model = p.model) ∧
      (((query_openai_compatible p prompt beh).status = .SUCCESS ∧
          ∃ s, (query_openai_compatible p prompt beh).content = some s ∧ s ≠ "") ∨
        ((query_openai_compatible p prompt beh).status ≠ .SUCCESS ∧
          (query_openai_compatible p prompt beh).content = none)) := by
  cases beh with
  | exception m =>
    have h := classify_exception_fields p m
    simpa only [query_openai_compatible, query_openai_compatible_body] using
      ⟨⟨h.2.2.1, h.2.2.2⟩, Or.inr ⟨h.1, h.2.1⟩⟩
  | response sc text ex =>
    cases ex with
    | fail m =>
      simp only [query_openai_compatible, query_openai_compatible_body]
      by_cases h200 : sc = 200
      · rw [if_pos h200]
        have h := classify_exception_fields p m
        exact ⟨⟨h.2.2.1, h.2.2.2⟩, Or.inr ⟨h.1, h.2.1⟩⟩
      · rw [if_neg h200]
        have h := classify_http_error_fields p sc (pyTruncate text 200)
        exact ⟨⟨h.2.2.1, h.2.2.2⟩, Or.inr ⟨h.1, h.2.1⟩⟩
    | ok content =>
      simp only [query_openai_compatible, query_openai_compatible_body]
      by_cases h200 : sc = 200
      · rw [if_pos h200]
        by_cases hc : content ≠ ""
        · rw [if_pos hc]
          exact ⟨⟨rfl, rfl⟩, Or.inl ⟨rfl, content, rfl, hc⟩⟩
        · rw [if_neg hc]
          exact ⟨⟨rfl, rfl⟩, Or.inr ⟨by simp, rfl⟩⟩
      · rw [if_neg h200]
        have h := classify_http_error_fields p sc (pyTruncate text 200)
        exact ⟨⟨h.2.2.1, h.2.2.2⟩, Or.inr ⟨h.1, h.2.1⟩⟩

lemma query_gemini_cases (p : LLMProvider) (prompt : String)
    (beh : HttpBehavior) :
    ((query_gemini p prompt beh).provider = p.name ∧
        (query_gemini p prompt beh).model = p.model) ∧
      (((query_gemini p prompt beh).status = .SUCCESS ∧
          ∃ s, (query_gemini p prompt beh).content = some s ∧ s ≠ "") ∨
        ((query_gemini p prompt beh).status ≠ .SUCCESS ∧
          (query_gemini p prompt beh).content = none)) := by
  cases beh with
  | exception m =>
    have h := classify_exception_fields p m
    simpa only [query_gemini, query_gemini_body] using
      ⟨⟨h.2.2.1, h.2.2.2⟩, Or.inr ⟨h.1, h.2.1⟩⟩
  | response sc text ex =>
    cases ex with
    | fail m =>
      simp only [query_gemini, query_gemini_body]
      by_cases h200 : sc = 200
      · rw [if_pos h200]
        have h := classify_exception_fields p m
        exact ⟨⟨h.2.2.1, h.2.2.2⟩, Or.inr ⟨h.1, h.2.1⟩⟩
      · rw [if_neg h200]
        have h := classify_http_error_fields p sc (pyTruncate text 200)
        exact ⟨⟨h.2.2.1, h.2.2.2⟩, Or.inr ⟨h.1, h.2.1⟩⟩
    | ok content =>
      simp only [query_gemini, query_gemini_body]
      by_cases h200 : sc = 200
      · rw [if_pos h200]
        by_cases hc : content ≠ ""
        · rw [if_pos hc]
          exact ⟨⟨rfl, rfl⟩, Or.inl ⟨rfl, content, rfl, hc⟩⟩
        · rw [if_neg hc]
          exact ⟨⟨rfl, rfl⟩, Or.inr ⟨by simp, rfl⟩⟩
      · rw [if_neg h200]
        have h := classify_http_error_fields p sc (pyTruncate text 200)
        exact ⟨⟨h.2.2.1, h.2.2.2⟩, Or.inr ⟨h.1, h.2.1⟩⟩

lemma dispatch_contentInv (p : LLMProvider) (prompt : String)
    (beh : HttpBehavior) : contentInv (dispatch p prompt beh) := by
  have main : ∀ r : LLMResponse,
      ((r.status = .SUCCESS ∧ ∃ s, r.content = some s ∧ s ≠ "") ∨
        (r.status ≠ .SUCCESS ∧ r.content = none)) → contentInv r := by
    rintro r (⟨hs, hc⟩ | ⟨hs, hc⟩)
    · exact ⟨⟨fun _ => hc, fun _ => hs⟩, fun hn => absurd hs hn⟩
    · refine ⟨⟨fun h => absurd h hs, ?_⟩, fun _ => hc⟩
      rintro ⟨s, hcs, _⟩
      rw [hc] at hcs
      exact absurd hcs (by simp)
  unfold dispatch
  split_ifs with h1 h2
  · apply main
    rcases query_ai4chat_cases prompt beh with ⟨hs, _, _, hc⟩ | h
    · exact Or.inl ⟨hs, hc⟩
    · exact Or.inr h
  · exact main _ (query_gemini_cases p prompt beh).2
  · exact main _ (query_openai_compatible_cases p prompt beh).2

lemma dispatch_success_fields (p : LLMProvider) (prompt : String)
    (beh : HttpBehavior)
    (hA : p.provider_type = "ai4chat" → p.name = "Ai4Chat" ∧ p.model = "ai4chat")
    (hs : (dispatch p prompt beh).status = .SUCCESS) :
    (dispatch p prompt beh).provider = p.name ∧
      (dispatch p prompt beh).model = p.model := by
  unfold dispatch at *
  split_ifs at * with h1 h2
  · obtain ⟨hn, hm⟩ := hA h1
    rcases query_ai4chat_cases prompt beh with ⟨_, hp, hmm, _⟩ | ⟨hns, _⟩
    · rw [hp, hmm, hn, hm]
      exact ⟨rfl, rfl⟩
    · exact absurd hs hns
  · exact (query_gemini_cases p prompt beh).1
  · exact (query_openai_compatible_cases p prompt beh).1

/-- Claim C2 (counterexample): the claim as stated is false on the code.
The text "UNAUTHORIZED" contains, as a case-sensitive substring, none of
"429", "rate", "401", "unauthorized", so by the claim it falls under
"anything else" and should classify as GenericFailure (ERROR); the code
lowercases before the "unauthorized" test and classifies it as AuthFailure
(API_KEY_MISSING). -/
theorem C2_counterexample :
    (classify_exception (cerebrasProvider "k") "UNAUTHORIZED").status =
        LLMStatus.API_KEY_MISSING ∧
      strContains "UNAUTHORIZED" "429" = false ∧
      strContains "UNAUTHORIZED" "rate" = false ∧
      strContains "UNAUTHORIZED" "401" = false ∧
      strContains "UNAUTHORIZED" "unauthorized" = false ∧
      LLMStatus.API_KEY_MISSING ≠ LLMStatus.ERROR := by
  decide

/-- Claim C2 (amended): the classifier is a pure function of the raw
failure.  HTTP-status path (`classify_http_error`): 429 maps to
RATE_LIMITED regardless of body content, 401 and 403 map to
API_KEY_MISSING, 404 maps to MODEL_NOT_FOUND, any other status maps to
ERROR.  Exception path (`classify_exception`), rules applied in order:
text containing "429", or containing "rate" case-insensitively, maps to
RATE_LIMITED; otherwise text containing "401", or containing
"unauthorized" case-insensitively, maps to API_KEY_MISSING; anything else
maps to ERROR.  (Amendment forced by the counterexample: the
"unauthorized" test is case-insensitive, not literal containment.) -/
theorem C2_error_classifier_table (p : LLMProvider) (status_code : Nat)
    (error_body error_msg : String) :
    (status_code = 429 →
      (classify_http_error p status_code error_body).status = .RATE_LIMITED) ∧
    (status_code = 401 ∨ status_code = 403 →
      (classify_http_error p status_code error_body).status = .API_KEY_MISSING) ∧
    (status_code = 404 →
      (classify_http_error p status_code error_body).status = .MODEL_NOT_FOUND) ∧
    (status_code ≠ 429 → status_code ≠ 401 → status_code ≠ 403 →
      status_code ≠ 404 →
      (classify_http_error p status_code error_body).status = .ERROR) ∧
    ((strContains error_msg "429" || strContains (pyLower error_msg) "rate") =
        true →
      (classify_exception p error_msg).status = .RATE_LIMITED) ∧
    ((strContains error_msg "429" || strContains (pyLower error_msg) "rate") =
        false →
      (strContains error_msg "401" ||
          strContains (pyLower error_msg) "unauthorized") = true →
      (classify_exception p error_msg).status = .API_KEY_MISSING) ∧
    ((strContains error_msg "429" || strContains (pyLower error_msg) "rate") =
        false →
      (strContains error_msg "401" ||
          strContains (pyLower error_msg) "unauthorized") = false →
      (classify_exception p error_msg).status = .ERROR) := by
  refine ⟨?_, ?_, ?_, ?_, ?_, ?_, ?_⟩
  · intro h
    simp [classify_http_error, h]
  · rintro (h | h) <;> simp [classify_http_error, h]
  · intro h
    simp [classify_http_error, h]
  · intro h1 h2 h3 h4
    simp [classify_http_error, h1, h2, h3, h4]
  · intro h
    simp [classify_exception, h]
  · intro h1 h2
    simp [classify_exception, h1, h2]
  · intro h1 h2
    simp [classify_exception, h1, h2]

/-- Claim C2 (witness): the amended table evaluated at concrete inputs,
one per classifier rule with a hypothesis. -/
theorem C2_error_classifier_table_witness :
    (classify_http_error (cerebrasProvider "k") 429 "busy").status =
        LLMStatus.RATE_LIMITED ∧
      (classify_http_error (cerebrasProvider "k") 403 "no").status =
        LLMStatus.API_KEY_MISSING ∧
      (classify_http_error (cerebrasProvider "k") 404 "gone").status =
        LLMStatus.MODEL_NOT_FOUND ∧
      (classify_http_error (cerebrasProvider "k") 500 "boom").status =
        LLMStatus.ERROR ∧
      (classify_exception (cerebrasProvider "k") "Rate limit hit").status =
        LLMStatus.RATE_LIMITED ∧
      (classify_exception (cerebrasProvider "k") "401 denied").status =
        LLMStatus.API_KEY_MISSING ∧
      (classify_exception (cerebrasProvider "k") "timed out").status =
        LLMStatus.ERROR := by
  refine ⟨?_, ?_, ?_, ?_, ?_, ?_, ?_⟩
  · exact (C2_error_classifier_table (cerebrasProvider "k") 429 "busy"
      "x").1 rfl
  · exact (C2_error_classifier_table (cerebrasProvider "k") 403 "no"
      "x").2.1 (Or.inr rfl)
  · exact (C2_error_classifier_table (cerebrasProvider "k") 404 "gone"
      "x").2.2.1 rfl
  · exact (C2_error_classifier_table (cerebrasProvider "k") 500 "boom"
      "x").2.2.2.1 (by decide) (by decide) (by decide) (by decide)
  · exact (C2_error_classifier_table (cerebrasProvider "k") 0 "x"
      "Rate limit hit").2.2.2.2.1 (by decide)
  · exact (C2_error_classifier_table (cerebrasProvider "k") 0 "x"
      "401 denied").2.2.2.2.2.1 (by decide) (by decide)
  · exact (C2_error_classifier_table (cerebrasProvider "k") 0 "x"
      "timed out").2.2.2.2.2.2 (by decide) (by decide)

/-- Claim C3 (counterexample): the claim as stated is false on the code.
For the empty provider list the returned backend name and model are the
capitalized "None" (Python renders the literals `provider="None"`,
`model="None"`) and the detail is "No providers configured", not the
lowercase strings "none" and "no providers configured" of the claim. -/
theorem C3_counterexample :
    (query [] "hi" fun _ => HttpBehavior.exception "boom").provider = "None" ∧
      (query [] "hi" fun _ => HttpBehavior.exception "boom").model = "None" ∧
      (query [] "hi" fun _ => HttpBehavior.exception "boom").error_message =
        some "No providers configured" ∧
      ("None" : String) ≠ "none" ∧
      ("No providers configured" : String) ≠ "no providers configured" := by
  decide

/-- Claim C3 (amended): for the empty provider list, `query` returns the
outcome with status API_KEY_MISSING (the AuthFailure kind), provider
"None", model "None", detail "No providers configured", immediately and
with zero adapter dispatches (the instrumented trace records no attempted
provider). -/
theorem C3_empty_provider_list (prompt : String) (env : Nat → HttpBehavior) :
    queryTrace [] prompt env =
      { response :=
          { status := .API_KEY_MISSING, content := none, provider := "None",
            model := "None",
            error_message := some "No providers configured" },
        attempted := [], errors := [] } :=
  rfl

/-- Claim C5 (counterexample): the claim as stated is false on the code.
For the Ai4Chat dialect adapter, HTTP 200 with an empty body is treated as
a failure whose detail is "HTTP 200", not "empty response"; and the
OpenAI-compatible adapter writes "Empty response" (capital E), not
"empty response". -/
theorem C5_counterexample :
    (query_ai4chat "hi"
        (.response 200 "" (.ok ""))).error_message = some "HTTP 200" ∧
      (query_ai4chat "hi" (.response 200 "" (.ok ""))).status = .ERROR ∧
      ("HTTP 200" : String) ≠ "empty response" ∧
      (query_openai_compatible (cerebrasProvider "k") "hi"
        (.response 200 "{}" (.ok ""))).error_message = some "Empty response" ∧
      ("Empty response" : String) ≠ "empty response" := by
  decide

/-- Claim C5 (amended): a transport-level success (HTTP 200) whose textual
content is empty is treated as a failure by every dialect adapter, and the
orchestrator continues to the next provider.  The failure detail is
"Empty response" for the OpenAI-compatible and Google adapters, but
"HTTP 200" for the keyless Ai4Chat adapter (its empty-body 200 falls
through to the generic non-success return).  In all cases the status is
ERROR (the GenericFailure kind) and, whenever a further provider is
configured, that provider is attempted. -/
theorem C5_empty_content_is_failure (p : LLMProvider)
    (prompt text : String) (e : JsonExtract) :
    ((query_openai_compatible p prompt
          (.response 200 text (.ok ""))).status = .ERROR ∧
        (query_openai_compatible p prompt
          (.response 200 text (.ok ""))).error_message =
            some "Empty response") ∧
      ((query_gemini p prompt (.response 200 text (.ok ""))).status = .ERROR ∧
        (query_gemini p prompt (.response 200 text (.ok ""))).error_message =
          some "Empty response") ∧
      ((query_ai4chat prompt (.response 200 "" e)).status = .ERROR ∧
        (query_ai4chat prompt (.response 200 "" e)).error_message =
          some "HTTP 200") ∧
      (∀ (q : LLMProvider) (rest : List LLMProvider)
          (env : Nat → HttpBehavior),
        env 0 = .response 200 "" (.ok "") →
        q ∈ (queryTrace (p :: q :: rest) prompt env).attempted) := by
  have hoc : ∀ (p2 : LLMProvider) (t : String),
      (query_openai_compatible p2 prompt
          (.response 200 t (.ok ""))).status = .ERROR ∧
        (query_openai_compatible p2 prompt
          (.response 200 t (.ok ""))).error_message = some "Empty response" := by
    intro p2 t
    simp [query_openai_compatible, query_openai_compatible_body]
  have hgem : ∀ (p2 : LLMProvider) (t : String),
      (query_gemini p2 prompt (.response 200 t (.ok ""))).status = .ERROR ∧
        (query_gemini p2 prompt
          (.response 200 t (.ok ""))).error_message = some "Empty response" := by
    intro p2 t
    simp [query_gemini, query_gemini_body]
  have ha4 : (query_ai4chat prompt (.response 200 "" e)).status = .ERROR ∧
      (query_ai4chat prompt (.response 200 "" e)).error_message =
        some "HTTP 200" := by
    exact ⟨rfl, rfl⟩
  refine ⟨hoc p text, hgem p text, ha4, ?_⟩
  intro q rest env henv
  have hfail : (dispatch p prompt (env 0)).status ≠ .SUCCESS := by
    rw [henv]
    unfold dispatch
    split_ifs
    · rw [(by simp [query_ai4chat, query_ai4chat_body] :
        (query_ai4chat prompt (.response 200 "" (.ok ""))).status = .ERROR)]
      simp
    · rw [(hgem p "").1]
      simp
    · rw [(hoc p "").1]
      simp
  have hq : ∀ (s : Nat) (errs : List String),
      q ∈ (queryLoop prompt env (q :: rest) s errs).attempted := by
    intro s errs
    by_cases hs : (dispatch q prompt (env s)).status = .SUCCESS <;>
      simp [queryLoop, hs]
  simp only [queryTrace, List.isEmpty_cons, Bool.false_eq_true, if_false]
  simp only [queryLoop, hfail, if_neg, not_false_iff]
  exact List.mem_cons_of_mem p (hq 1 _)

/-- Claim C5 (witness): the amended theorem applied at a concrete input:
the keyless provider receives an empty 200 body and the next configured
provider is attempted. -/
theorem C5_empty_content_is_failure_witness :
    (query_ai4chat "hi" (.response 200 "" (.ok ""))).status = .ERROR ∧
      cerebrasProvider "k" ∈
        (queryTrace [ai4chatProvider, cerebrasProvider "k"] "hi"
          (fun _ => .response 200 "" (.ok ""))).attempted := by
  have h := C5_empty_content_is_failure ai4chatProvider "hi" "" (.ok "")
  exact ⟨h.2.2.1.1, h.2.2.2 (cerebrasProvider "k") [] _ rfl⟩

/-- Claim C1: for every non-empty provider list (with the reachability
invariant that any provider of type "ai4chat" carries the hardcoded
Ai4Chat name and model, which `initialize_providers` guarantees — see
`initialize_providers_ai4chat_names`) and every prompt and network
behaviour, `query` returns status SUCCESS iff some provider, attempted in
list order, yields a successful adapter result; an adapter result is
successful iff it yields a present non-empty content string; and when `i`
is the first successful position, the returned provider and model are
those of provider `i` and exactly the providers up to and including `i`
are attempted (no later provider is dispatched). -/
theorem C1_first_success_wins (providers : List LLMProvider) (prompt : String)
    (env : Nat → HttpBehavior)
    (hne : providers ≠ [])
    (hA : ∀ p ∈ providers, p.provider_type = "ai4chat" →
      p.name = "Ai4Chat" ∧ p.model = "ai4chat") :
    ((query providers prompt env).status = .SUCCESS ↔
      ∃ i, ∃ h : i < providers.length,
        (dispatch (providers.get ⟨i, h⟩) prompt (env i)).status = .SUCCESS) ∧
    (∀ (i : Nat) (h : i < providers.length),
      ((dispatch (providers.get ⟨i, h⟩) prompt (env i)).status = .SUCCESS ↔
        ∃ s, (dispatch (providers.get ⟨i, h⟩) prompt (env i)).content =
          some s ∧ s ≠ "")) ∧
    (∀ (i : Nat) (h : i < providers.length),
      (dispatch (providers.get ⟨i, h⟩) prompt (env i)).status = .SUCCESS →
      (∀ j, j < i → ∀ hj : j < providers.length,
        (dispatch (providers.get ⟨j, hj⟩) prompt (env j)).status ≠ .SUCCESS) →
      (query providers prompt env).provider = (providers.get ⟨i, h⟩).name ∧
      (query providers prompt env).model = (providers.get ⟨i, h⟩).model ∧
      (query providers prompt env).status = .SUCCESS ∧
      (queryTrace providers prompt env).attempted = providers.take (i + 1)) := by
  have hempty : providers.isEmpty = false := by
    cases providers with
    | nil => exact absurd rfl hne
    | cons a l => rfl
  have htr : queryTrace providers prompt env =
      queryLoop prompt env providers 0 [] := by
    simp [queryTrace, hempty]
  refine ⟨?_, ?_, ?_⟩
  · rw [query, htr]
    have h := queryLoop_success_iff prompt env providers 0 []
    simpa using h
  · intro i h
    exact (dispatch_contentInv (providers.get ⟨i, h⟩) prompt (env i)).1
  · intro i h hsucc hfirst
    have hsucc0 : (dispatch (providers.get ⟨i, h⟩) prompt
        (env (0 + i))).status = .SUCCESS := by
      simpa using hsucc
    have hfirst0 : ∀ j, j < i → ∀ hj : j < providers.length,
        (dispatch (providers.get ⟨j, hj⟩) prompt (env (0 + j))).status ≠
          .SUCCESS := by
      intro j hj hjl
      simpa using hfirst j hj hjl
    obtain ⟨h1, h2, _⟩ :=
      queryLoop_first_success prompt env providers 0 [] i h hsucc0 hfirst0
    have hq : query providers prompt env =
        dispatch (providers.get ⟨i, h⟩) prompt (env i) := by
      rw [query, htr, h1]
      simp
    obtain ⟨hp, hm⟩ := dispatch_success_fields (providers.get ⟨i, h⟩) prompt
      (env i) (hA _ (providers.get_mem i h)) hsucc
    refine ⟨by rw [hq]; exact hp, by rw [hq]; exact hm,
      by rw [hq]; exact hsucc, ?_⟩
    rw [htr]
    exact h2

/-- Reachability invariant discharging the hypothesis of
`C1_first_success_wins` for every provider list the constructor builds:
the only provider of type "ai4chat" is the hardcoded Ai4Chat descriptor. -/
lemma initialize_providers_ai4chat_names (c : ConstantsVar) :
    ∀ p ∈ initialize_providers c, p.provider_type = "ai4chat" →
      p.name = "Ai4Chat" ∧ p.model = "ai4chat" := by
  rw [initialize_providers_eq]
  intro p hp
  simp only [providersList, List.mem_append, List.mem_singleton] at hp
  rcases hp with ((((hp | hp) | hp) | hp) | hp) <;>
    [skip; split at hp; split at hp; split at hp; split at hp] <;>
    simp_all [ai4chatProvider, cerebrasProvider, groqProvider,
      openRouterProvider, geminiProvider]

/-- Claim C1 (witness): one keyless provider answering HTTP 200 "hello";
the hypotheses of `C1_first_success_wins` hold and its conclusion gives
SUCCESS from that first provider. -/
theorem C1_first_success_wins_witness :
    (query [ai4chatProvider] "hi"
        (fun _ => .response 200 "hello" (.ok "hello"))).status = .SUCCESS ∧
      (query [ai4chatProvider] "hi"
        (fun _ => .response 200 "hello" (.ok "hello"))).provider = "Ai4Chat" ∧
      (query [ai4chatProvider] "hi"
        (fun _ => .response 200 "hello" (.ok "hello"))).model = "ai4chat" ∧
      (queryTrace [ai4chatProvider] "hi"
        (fun _ => .response 200 "hello" (.ok "hello"))).attempted =
        [ai4chatProvider] := by
  have h := C1_first_success_wins [ai4chatProvider] "hi"
    (fun _ => .response 200 "hello" (.ok "hello"))
    (by decide) (by decide)
  have h0 := h.2.2 0 (by decide) (by decide)
    (fun j hj => absurd hj (Nat.not_lt_zero j))
  exact ⟨h0.2.2.1, h0.1, h0.2.1, h0.2.2.2⟩

/-- Claim C4 (counterexample): the claim as stated is false on the code.
With three configured providers all returning HTTP 500, the exhausted
outcome carries backend name "All" (capitalized, not "all") and its detail
is the join of the per-provider failure entries prefixed with
"All providers failed: ", not the bare join. -/
theorem C4_counterexample :
    (query [cerebrasProvider "k1", groqProvider "k2", openRouterProvider "k3"]
        "hi" (fun _ => .response 500 "oops" (.ok "x"))).provider = "All" ∧
      ("All" : String) ≠ "all" ∧
      (query [cerebrasProvider "k1", groqProvider "k2",
          openRouterProvider "k3"] "hi"
        (fun _ => .response 500 "oops" (.ok "x"))).error_message =
        some ("All providers failed: " ++ String.intercalate "; "
          ["Cerebras: HTTP 500: oops", "Groq: HTTP 500: oops",
            "OpenRouter: HTTP 500: oops"]) ∧
      ("All providers failed: " ++ String.intercalate "; "
          ["Cerebras: HTTP 500: oops", "Groq: HTTP 500: oops",
            "OpenRouter: HTTP 500: oops"]) ≠
        String.intercalate "; " ["Cerebras: HTTP 500: oops",
          "Groq: HTTP 500: oops", "OpenRouter: HTTP 500: oops"] := by
  decide

/-- Claim C4 (amended): when every provider of a non-empty list fails,
`query` returns status ERROR (the GenericFailure kind), provider "All",
model "All", and detail equal to "All providers failed: " followed by the
"; "-join of the per-provider failure report, which contains exactly one
entry per attempted provider. -/
theorem C4_exhausted_fallback (providers : List LLMProvider)
    (prompt : String) (env : Nat → HttpBehavior)
    (hne : providers ≠ [])
    (hfail : ∀ j, ∀ hj : j < providers.length,
      (dispatch (providers.get ⟨j, hj⟩) prompt (env j)).status ≠ .SUCCESS) :
    (query providers prompt env).status = .ERROR ∧
      (query providers prompt env).provider = "All" ∧
      (query providers prompt env).model = "All" ∧
      (query providers prompt env).error_message =
        some ("All providers failed: " ++ String.intercalate "; "
          (queryTrace providers prompt env).errors) ∧
      (queryTrace providers prompt env).errors.length = providers.length := by
  have hempty : providers.isEmpty = false := by
    cases providers with
    | nil => exact absurd rfl hne
    | cons a l => rfl
  have htr : queryTrace providers prompt env =
      queryLoop prompt env providers 0 [] := by
    simp [queryTrace, hempty]
  have hfail0 : ∀ j, ∀ hj : j < providers.length,
      (dispatch (providers.get ⟨j, hj⟩) prompt (env (0 + j))).status ≠
        .SUCCESS := by
    intro j hj
    simpa using hfail j hj
  have h := queryLoop_all_fail prompt env providers 0 [] hfail0
  rw [query, htr, h]
  simp [allFailedResponse, failEntries_length]

/-- Claim C4 (witness): the amended theorem applied to three providers all
answering HTTP 500. -/
theorem C4_exhausted_fallback_witness :
    (query [cerebrasProvider "k1", groqProvider "k2", openRouterProvider "k3"]
        "hi" (fun _ => .response 500 "oops" (.ok "x"))).status = .ERROR ∧
      (queryTrace [cerebrasProvider "k1", groqProvider "k2",
          openRouterProvider "k3"] "hi"
        (fun _ => .response 500 "oops" (.ok "x"))).errors.length = 3 := by
  have h := C4_exhausted_fallback
    [cerebrasProvider "k1", groqProvider "k2", openRouterProvider "k3"] "hi"
    (fun _ => .response 500 "oops" (.ok "x")) (by decide) (by decide)
  exact ⟨h.1, h.2.2.2.2⟩

/-- Adapter dispatch in exception-transparent form: the same `try` bodies
and `except` handlers as `dispatch`, but typed in `Except` so that an
exception NOT caught by an adapter would surface as `Except.error` and
propagate through the orchestrator loop (which has no `try` of its own). -/
def dispatchE (p : LLMProvider) (prompt : String) (beh : HttpBehavior) :
    Except String LLMResponse :=
  if p.provider_type = "ai4chat" then
    match query_ai4chat_body prompt beh with
    | .ok r => .ok r
    | .error e =>
      .ok { status := .ERROR, content := none, provider := "Ai4Chat",
            model := "ai4chat", error_message := some e }
  else if p.provider_type = "google" then
    match query_gemini_body p prompt beh with
    | .ok r => .ok r
    | .error e => .ok (classify_exception p e)
  else
    match query_openai_compatible_body p prompt beh with
    | .ok r => .ok r
    | .error e => .ok (classify_exception p e)

/-- The fallback loop of `LLMService.query` in exception-transparent form:
an `Except.error` from an adapter would abort the whole loop (the loop
body awaits the adapter with no exception handling around it). -/
def queryLoopE (prompt : String) (env : Nat → HttpBehavior) :
    List LLMProvider → Nat → List String → Except String LLMResponse
  | [], _, errors => .ok (allFailedResponse errors)
  | p :: rest, i, errors =>
    match dispatchE p prompt (env i) with
    | .error e => .error e
    | .ok r =>
      if r.status = .SUCCESS then
        .ok r
      else
        queryLoopE prompt env rest (i + 1) (errors ++ [failEntry p r])

/-- Method `LLMService.query` in exception-transparent form. -/
def queryE (providers : List LLMProvider) (prompt : String)
    (env : Nat → HttpBehavior) : Except String LLMResponse :=
  if providers.isEmpty then
    .ok noProvidersResponse
  else
    queryLoopE prompt env providers 0 []

lemma dispatchE_ok (p : LLMProvider) (prompt : String) (beh : HttpBehavior) :
    dispatchE p prompt beh = .ok (dispatch p prompt beh) := by
  unfold dispatchE dispatch
  split_ifs
  · unfold query_ai4chat
    cases query_ai4chat_body prompt beh <;> rfl
  · unfold query_gemini
    cases query_gemini_body p prompt beh <;> rfl
  · unfold query_openai_compatible
    cases query_openai_compatible_body p prompt beh <;> rfl

/-- Claim C6: for every prompt and every behaviour of the underlying HTTP
calls — any status code, any body text, any extraction outcome on a 200
response (including malformed JSON and missing fields, the `JsonExtract.fail`
cases), and any raised transport exception — the orchestrator returns an
`LLMResponse` value and no exception escapes its boundary: the
exception-transparent `queryE` always evaluates to `Except.ok` of the value
`query` returns (termination is by construction: the embedded `query` is a
total function). -/
theorem C6_query_total (providers : List LLMProvider) (prompt : String)
    (env : Nat → HttpBehavior) :
    queryE providers prompt env = .ok (query providers prompt env) := by
  have hloop : ∀ (ps : List LLMProvider) (s : Nat) (errs : List String),
      queryLoopE prompt env ps s errs =
        .ok (queryLoop prompt env ps s errs).response := by
    intro ps
    induction ps with
    | nil => intro s errs; rfl
    | cons p rest ih =>
      intro s errs
      simp only [queryLoopE, queryLoop, dispatchE_ok]
      by_cases hs : (dispatch p prompt (env s)).status = .SUCCESS
      · simp [hs]
      · simp only [hs, if_neg, not_false_iff, ite_false]
        exact ih (s + 1) (errs ++ [failEntry p (dispatch p prompt (env s))])
  unfold queryE query queryTrace
  by_cases hempty : providers.isEmpty
  · simp [hempty]
  · simp only [hempty, if_neg, not_false_iff]
    exact hloop providers 0 []

/-- Claim C7: every `LLMResponse` the service produces — any adapter
result and any `query` result, over all providers, prompts and network
behaviours — has a present, non-empty content string if and only if its
status is SUCCESS, and every non-SUCCESS response has content `none`. -/
theorem C7_content_present_iff_success :
    (∀ (p : LLMProvider) (prompt : String) (beh : HttpBehavior),
      ((dispatch p prompt beh).status = .SUCCESS ↔
        ∃ s, (dispatch p prompt beh).content = some s ∧ s ≠ "") ∧
      ((dispatch p prompt beh).status ≠ .SUCCESS →
        (dispatch p prompt beh).content = none)) ∧
    (∀ (providers : List LLMProvider) (prompt : String)
        (env : Nat → HttpBehavior),
      ((query providers prompt env).status = .SUCCESS ↔
        ∃ s, (query providers prompt env).content = some s ∧ s ≠ "") ∧
      ((query providers prompt env).status ≠ .SUCCESS →
        (query providers prompt env).content = none)) := by
  constructor
  · intro p prompt beh
    exact dispatch_contentInv p prompt beh
  · intro providers prompt env
    have hloop : ∀ (ps : List LLMProvider) (s : Nat) (errs : List String),
        contentInv (queryLoop prompt env ps s errs).response := by
      intro ps
      induction ps with
      | nil =>
        intro s errs
        exact ⟨by simp [queryLoop, allFailedResponse], fun _ => rfl⟩
      | cons p rest ih =>
        intro s errs
        by_cases hs : (dispatch p prompt (env s)).status = .SUCCESS
        · have : (queryLoop prompt env (p :: rest) s errs).response =
              dispatch p prompt (env s) := by
            simp [queryLoop, hs]
          rw [this]
          exact dispatch_contentInv p prompt (env s)
        · have : (queryLoop prompt env (p :: rest) s errs).response =
              (queryLoop prompt env rest (s + 1)
                (errs ++ [failEntry p (dispatch p prompt (env s))])).response := by
            simp [queryLoop, hs]
          rw [this]
          exact ih (s + 1) _
    unfold query queryTrace
    by_cases hempty : providers.isEmpty
    · simp only [hempty, if_pos]
      exact ⟨by simp [noProvidersResponse], fun _ => rfl⟩
    · simp only [hempty, if_neg, not_false_iff]
      exact hloop providers 0 []

/-- Claim C8: the provider list built at construction is sorted ascending
by priority; the embedded sort (`List.mergeSort`, modelling the stable
Python `list.sort`) breaks priority ties by insertion order — for every
priority the subsequence of that priority is exactly the insertion-order
subsequence; and the fallback loop attempts providers exactly in list
order: the attempted providers are always an initial prefix
(`List.take`) of the provider list.  Determinism is by construction:
`initialize_providers` and `queryTrace` are functions of their
arguments. -/
theorem C8_priority_order :
    (∀ c : ConstantsVar,
      (initialize_providers c).Pairwise fun a b => a.priority ≤ b.priority) ∧
    (∀ (l : List LLMProvider) (k : Int),
      ((l.mergeSort priLE).filter fun p => p.priority == k) =
        l.filter fun p => p.priority == k) ∧
    (∀ (providers : List LLMProvider) (prompt : String)
        (env : Nat → HttpBehavior),
      ∃ n, (queryTrace providers prompt env).attempted =
        providers.take n) := by
  refine ⟨?_, mergeSort_priLE_filter, ?_⟩
  · intro c
    have h := List.sorted_mergeSort priLE_trans priLE_total (providersList c)
    refine List.Pairwise.imp ?_ h
    intro a b hab
    simpa [priLE] using hab
  · intro providers prompt env
    by_cases hempty : providers.isEmpty
    · refine ⟨0, ?_⟩
      simp [queryTrace, hempty]
    · have htr : queryTrace providers prompt env =
          queryLoop prompt env providers 0 [] := by
        simp [queryTrace, hempty]
      rw [htr]
      exact queryLoop_attempted_take prompt env providers 0 []

/-- Claim C10: every `LLMService` built through `__init__` has a non-empty
provider list — the keyless Ai4Chat descriptor (priority 0, empty api_key)
is appended unconditionally, for every configuration of the API-key
environment variables — and consequently the empty-provider-list branch of
`query` is never taken: on every constructed list, `queryTrace` is the
fallback loop, not the "No providers configured" outcome. -/
theorem C10_empty_branch_unreachable (c : ConstantsVar) (prompt : String)
    (env : Nat → HttpBehavior) :
    initialize_providers c ≠ [] ∧
      (initialize_providers c).head? = some ai4chatProvider ∧
      ai4chatProvider ∈ initialize_providers c ∧
      ai4chatProvider.priority = 0 ∧
      ai4chatProvider.api_key = "" ∧
      queryTrace (initialize_providers c) prompt env =
        queryLoop prompt env (initialize_providers c) 0 [] := by
  obtain ⟨t, ht⟩ : ∃ t, initialize_providers c = ai4chatProvider :: t := by
    rw [initialize_providers_eq]
    exact ⟨_, rfl⟩
  refine ⟨by rw [ht]; exact List.cons_ne_nil _ _, by rw [ht]; rfl,
    by rw [ht]; exact List.mem_cons_self _ _, rfl, rfl, ?_⟩
  rw [ht]
  simp [queryTrace]

/-- Modelled from the spec: the pydantic request model `GeneralAIRequest`
is imported by `src/routes/general_ai_routes.py` but missing from
`src/models/schemas.py`; its fields are reconstructed from the handler
body (`request.user_id`, `request.message`, `request.system_prompt`,
`request.temperature`, the latter two optional). -/
structure GeneralAIRequest where
  user_id : String
  message : String
  system_prompt : Option String
  temperature : Option Float

/-- Modelled from the spec: the pydantic response model
`GeneralAIResponse` is imported by `src/routes/general_ai_routes.py` but
missing from `src/models/schemas.py`; its fields are reconstructed from
its three construction sites (lines 153-159, 162-169, 173-177), with the
fields omitted there defaulting like the sibling `ChatResponse` model
(provider/model/error_message `None`, memory_length 0). -/
structure GeneralAIResponse where
  status : String
  response : String
  provider : Option String := none
  model : Option String := none
  memory_length : Nat := 0
  error_message : Option String := none
  deriving DecidableEq

/-- Constant `APIConfig.DEFAULT_TEMPERATURE` (`src/config.py`, line 55). -/
def DEFAULT_TEMPERATURE : Float := 0.7

/-- Python call semantics for line 144 of
`src/routes/general_ai_routes.py`: `LLMService.query` (line 449 of
`src/services/llm_service.py`) accepts only `self` and `prompt`, so the
call `llm_service.query(prompt, temperature=temperature)` raises
`TypeError` during argument binding, before the method body runs, for
every argument value. -/
def query_with_temperature (_prompt : String) (_temperature : Float) :
    Except String LLMResponse :=
  .error "query() got an unexpected keyword argument temperature"

/-- Result of one handler invocation: a response body, or an
`HTTPException` raised by `verify_api_key`. -/
inductive HandlerResult where
  | ok (resp : GeneralAIResponse)
  | httpError (status_code : Nat) (detail : String)
  deriving DecidableEq

/-- Handler `general_ai_chat` of `src/routes/general_ai_routes.py`
(lines 103-177).  The framework guarantees the `x_api_key` header is
present (it is a required header parameter), so `verify_api_key` reduces
to the 403 comparison against `APIConfig.API_KEY` (`api_key_config`).
The collaborator calls inside the `try` block are passed explicitly as
`Except` values: `addMessage` (memory_service.add_message), `buildPrompt`
(build_conversation_prompt), `memoryLen` (get_memory_length) and
`saveAssistant` (the success-path add_message); `Except.error e` models
that call raising with text `e`.  The blanket `except Exception` branch
returns the fixed error response.  On the (unreachable) success branch the
code passes `response.content` as the response string; `pyOptStr` renders
it. -/
def general_ai_chat (req : GeneralAIRequest)
    (x_api_key api_key_config : String) (addMessage : Except String Unit)
    (buildPrompt : Except String String) (memoryLen : Except String Nat)
    (saveAssistant : Except String Unit) : HandlerResult :=
  if x_api_key ≠ api_key_config then
    .httpError 403 "Invalid API key"
  else
    let body : Except String GeneralAIResponse :=
      match addMessage with
      | .error e => .error e
      | .ok _ =>
        match buildPrompt with
        | .error e => .error e
        | .ok prompt =>
          let temperature : Float :=
            match req.temperature with
            | some t => t
            | none => DEFAULT_TEMPERATURE
          match query_with_temperature prompt temperature with
          | .error e => .error e
          | .ok r =>
            match memoryLen with
            | .error e => .error e
            | .ok memory_length =>
              if r.status = .SUCCESS then
                match saveAssistant with
                | .error e => .error e
                | .ok _ =>
                  .ok { status := "success", response := pyOptStr r.content,
                        provider := some r.provider, model := some r.model,
                        memory_length := memory_length }
              else
                .ok { status := "error",
                      response :=
                        "Sorry, I encountered an error. Please try again.",
                      provider := some r.provider, model := some r.model,
                      memory_length := memory_length,
                      error_message := r.error_message }
    match body with
    | .ok resp => .ok resp
    | .error e =>
      .ok { status := "error", response := "An unexpected error occurred.",
            error_message := some e }

/-- Claim C9: every call to the `/general-ai` handler that passes API-key
verification (the header equals the configured key) returns a
`GeneralAIResponse` with status "error" and response "An unexpected error
occurred.", whatever the request and whatever the collaborator calls do:
the `query` call raises `TypeError` (unexpected keyword argument), the
blanket `except` branch converts any raise into this fixed error
response, and the success branch is unreachable. -/
theorem C9_general_ai_always_error (req : GeneralAIRequest) (key : String)
    (addMessage : Except String Unit) (buildPrompt : Except String String)
    (memoryLen : Except String Nat) (saveAssistant : Except String Unit) :
    ∃ e, general_ai_chat req key key addMessage buildPrompt memoryLen
        saveAssistant =
      .ok { status := "error", response := "An unexpected error occurred.",
            provider := none, model := none, memory_length := 0,
            error_message := some e } := by
  unfold general_ai_chat
  rw [if_neg (by simp)]
  cases addMessage with
  | error e => exact ⟨e, rfl⟩
  | ok u =>
    cases buildPrompt with
    | error e => exact ⟨e, rfl⟩
    | ok prompt =>
      exact ⟨"query() got an unexpected keyword argument temperature", rfl⟩
